import Mathlib

/-!
Shallow embedding of the Archon retrieval layer.

The definitions below are translated from the repository's SQL sources:

* `hybrid_search_archon_crawled_pages` — the weighted hybrid-search function
  (vector similarity fused with lexical rank over a full outer join).
* `kg_find_similar_entities`, `kg_get_entity_relationships`,
  `kg_get_entity_timeline` — the knowledge-graph query functions.
* `store_research_memory`, `get_research_memories_for_user`,
  `update_memory_importance` — the researcher-memory functions.

External database primitives that are not part of this repository
(pgvector's cosine-distance operator, the full-text `@@`/`ts_rank_cd`
primitives, and pg_trgm's `similarity`) are taken as function parameters,
exactly as the SQL treats them as black boxes.  Timestamps are modelled as
integers (seconds), UUIDs as naturals, numeric scores as rationals.
-/

/-- jsonb containment `@>` restricted to flat string maps: every key/value
pair of `small` occurs in `big`. -/
def jsonbContains (big small : List (String × String)) : Bool :=
  small.all (fun kv => big.contains kv)

/-! ## Hybrid search over `archon_crawled_pages` -/

/-- One row of `archon_crawled_pages`.  `hasEmbedding` models
`embedding IS NOT NULL`. -/
structure HSRow where
  id : Nat
  url : String
  chunkNumber : Nat
  content : String
  metadata : List (String × String)
  sourceId : String
  hasEmbedding : Bool
deriving DecidableEq

/-- One invocation of the hybrid-search function.  `cosDist` is
`row.embedding <=> query_embedding`, `tsMatch` is
`content_search_vector @@ plainto_tsquery(query_text)` and `tsRank` is
`ts_rank_cd(content_search_vector, plainto_tsquery(query_text))`; all three
are external database primitives, hence parameters. -/
structure HSQuery where
  cosDist : HSRow → ℚ
  tsMatch : HSRow → Bool
  tsRank : HSRow → ℚ
  filter : List (String × String)
  sourceFilter : Option String
  matchCount : Nat

/-- The shared WHERE clause: `metadata @> filter AND (source_filter IS NULL
OR source_id = source_filter)`. -/
def hsFilterOk (q : HSQuery) (r : HSRow) : Bool :=
  jsonbContains r.metadata q.filter &&
    (match q.sourceFilter with
     | none => true
     | some s => r.sourceId == s)

/-- Ordering by cosine distance ascending (`ORDER BY embedding <=> query`). -/
def distLE (a b : HSRow × ℚ) : Prop := a.2 ≤ b.2

instance : DecidableRel distLE := fun a b => inferInstanceAs (Decidable (a.2 ≤ b.2))

instance : IsTotal (HSRow × ℚ) distLE := ⟨fun a b => le_total a.2 b.2⟩

instance : IsTrans (HSRow × ℚ) distLE := ⟨fun _ _ _ h1 h2 => le_trans h1 h2⟩

/-- Ordering by score descending (`ORDER BY text_sim DESC`). -/
def rankGE (a b : HSRow × ℚ) : Prop := b.2 ≤ a.2

instance : DecidableRel rankGE := fun a b => inferInstanceAs (Decidable (b.2 ≤ a.2))

instance : IsTotal (HSRow × ℚ) rankGE := ⟨fun a b => le_total b.2 a.2⟩

instance : IsTrans (HSRow × ℚ) rankGE := ⟨fun _ _ _ h1 h2 => le_trans h2 h1⟩

/-- The `vector_results` CTE: rows passing the filters with a non-null
embedding, ordered by distance ascending, limited to `match_count`, each
paired with `vector_sim = 1 - distance`. -/
def vectorResults (q : HSQuery) (rows : List HSRow) : List (HSRow × ℚ) :=
  ((List.insertionSort distLE
      ((rows.filter (fun r => hsFilterOk q r && r.hasEmbedding)).map
        (fun r => (r, q.cosDist r)))).take q.matchCount).map
    (fun p => (p.1, 1 - p.2))

/-- The `text_results` CTE: rows passing the filters whose lexical index
matches the query, ordered by `ts_rank_cd` descending, limited to
`match_count`. -/
def textResults (q : HSQuery) (rows : List HSRow) : List (HSRow × ℚ) :=
  (List.insertionSort rankGE
      ((rows.filter (fun r => hsFilterOk q r && q.tsMatch r)).map
        (fun r => (r, q.tsRank r)))).take q.matchCount

/-- `FULL OUTER JOIN text_results t ON v.id = t.id`: every vector row paired
with the matching text row (if any), plus every text row with no matching
vector row. -/
def hsJoin (vs ts : List (HSRow × ℚ)) : List (HSRow × Option ℚ × Option ℚ) :=
  vs.map (fun v => (v.1, some v.2, (ts.find? (fun t => t.1.id == v.1.id)).map Prod.snd))
    ++ (ts.filter (fun t => !(vs.any (fun v => v.1.id == t.1.id)))).map
        (fun t => (t.1, none, some t.2))

/-- `vector_weight FLOAT := 0.5` in the migration. -/
def vectorWeight : ℚ := 1 / 2

/-- `text_weight FLOAT := 0.5` in the migration. -/
def textWeight : ℚ := 1 / 2

/-- The weighted combination from `combined_results`: clamp the vector
similarity to `≥ 0` and the text rank to `≤ 1`, weight each side, and use 0
for an absent signal. -/
def fusedScore (ov ot : Option ℚ) : ℚ :=
  (match ov with
   | some s => vectorWeight * max 0 s
   | none => 0) +
  (match ot with
   | some tr => textWeight * min 1 tr
   | none => 0)

/-- The `match_type` CASE: both signals → hybrid, vector only → vector,
otherwise keyword. -/
def fusedMatchType (ov ot : Option ℚ) : String :=
  match ov, ot with
  | some _, some _ => "hybrid"
  | some _, none => "vector"
  | _, _ => "keyword"

/-- One row of the hybrid-search result set. -/
structure HSResult where
  id : Nat
  url : String
  chunkNumber : Nat
  content : String
  metadata : List (String × String)
  sourceId : String
  similarity : ℚ
  matchType : String
deriving DecidableEq

/-- Final ordering: `ORDER BY similarity DESC`. -/
def resScoreGE (a b : HSResult) : Prop := b.similarity ≤ a.similarity

instance : DecidableRel resScoreGE :=
  fun a b => inferInstanceAs (Decidable (b.similarity ≤ a.similarity))

instance : IsTotal HSResult resScoreGE := ⟨fun a b => le_total b.similarity a.similarity⟩

instance : IsTrans HSResult resScoreGE := ⟨fun _ _ _ h1 h2 => le_trans h2 h1⟩

/-- The `combined_results` CTE. -/
def hsCombined (q : HSQuery) (rows : List HSRow) : List HSResult :=
  (hsJoin (vectorResults q rows) (textResults q rows)).map
    (fun e =>
      { id := e.1.id, url := e.1.url, chunkNumber := e.1.chunkNumber,
        content := e.1.content, metadata := e.1.metadata, sourceId := e.1.sourceId,
        similarity := fusedScore e.2.1 e.2.2,
        matchType := fusedMatchType e.2.1 e.2.2 })

/-- `hybrid_search_archon_crawled_pages`: combine, order by fused similarity
descending, limit to `match_count`. -/
def hybrid_search_archon_crawled_pages (q : HSQuery) (rows : List HSRow) :
    List HSResult :=
  (List.insertionSort resScoreGE (hsCombined q rows)).take q.matchCount

/-! ### Facts about the hybrid search -/

/-- Taking a prefix of a sorted permutation of a list with `Nodup` images
keeps the images `Nodup`. -/
theorem nodup_map_take_sort {α β : Type} (r : α → α → Prop) [DecidableRel r]
    (l : List α) (f : α → β) (h : (l.map f).Nodup) (n : Nat) :
    (((List.insertionSort r l).take n).map f).Nodup := by
  have h1 : ((List.insertionSort r l).map f).Nodup :=
    (((List.perm_insertionSort r l).map f).nodup_iff).mpr h
  exact h1.sublist ((List.take_sublist n (List.insertionSort r l)).map f)

/-- Ids of rows in the `vector_results` CTE are distinct when the table's
ids are. -/
theorem nodup_ids_vectorResults (q : HSQuery) (rows : List HSRow)
    (h : (rows.map HSRow.id).Nodup) :
    ((vectorResults q rows).map (fun p => p.1.id)).Nodup := by
  have hbase :
      (((rows.filter (fun r => hsFilterOk q r && r.hasEmbedding)).map
          (fun r => (r, q.cosDist r))).map (fun p : HSRow × ℚ => p.1.id)).Nodup := by
    rw [List.map_map]
    exact h.sublist ((List.filter_sublist rows).map HSRow.id)
  have h2 := nodup_map_take_sort distLE _ (fun p : HSRow × ℚ => p.1.id) hbase q.matchCount
  unfold vectorResults
  rw [List.map_map]
  exact h2

/-- Ids of rows in the `text_results` CTE are distinct when the table's
ids are. -/
theorem nodup_ids_textResults (q : HSQuery) (rows : List HSRow)
    (h : (rows.map HSRow.id).Nodup) :
    ((textResults q rows).map (fun p => p.1.id)).Nodup := by
  have hbase :
      (((rows.filter (fun r => hsFilterOk q r && q.tsMatch r)).map
          (fun r => (r, q.tsRank r))).map (fun p : HSRow × ℚ => p.1.id)).Nodup := by
    rw [List.map_map]
    exact h.sublist ((List.filter_sublist rows).map HSRow.id)
  exact nodup_map_take_sort rankGE _ (fun p : HSRow × ℚ => p.1.id) hbase q.matchCount

/-- C1: for every query where a row appears in both the top-N vector result
set and the top-N lexical result set, its reported score equals
`vector_weight * max 0 vector_sim + text_weight * min rank 1` exactly, and
its match type is "hybrid". -/
theorem hybrid_fusion_score_c1
    (q : HSQuery) (rows : List HSRow) (hnd : (rows.map HSRow.id).Nodup)
    (v t : HSRow × ℚ) (hv : v ∈ vectorResults q rows) (ht : t ∈ textResults q rows)
    (hid : v.1.id = t.1.id)
    (res : HSResult) (hres : res ∈ hybrid_search_archon_crawled_pages q rows)
    (hrid : res.id = v.1.id) :
    res.similarity = vectorWeight * max 0 v.2 + textWeight * min 1 t.2 ∧
      res.matchType = "hybrid" := by
  have hvnd := nodup_ids_vectorResults q rows hnd
  have htnd := nodup_ids_textResults q rows hnd
  have hcomb : res ∈ hsCombined q rows := by
    have h1 : res ∈ List.insertionSort resScoreGE (hsCombined q rows) :=
      (List.take_sublist _ _).subset hres
    exact (List.mem_insertionSort resScoreGE).1 h1
  rcases List.mem_map.1 hcomb with ⟨e, he, hmk⟩
  rcases List.mem_append.1 he with hA | hB
  · rcases List.mem_map.1 hA with ⟨v', hv', hveq⟩
    have heid : e.1.id = v.1.id := by rw [← hmk] at hrid; exact hrid
    have hv'id : v'.1.id = v.1.id := by
      have : v'.1.id = e.1.id := by rw [← hveq]
      rw [this, heid]
    have hv'v : v' = v :=
      List.inj_on_of_nodup_map hvnd hv' hv hv'id
    subst hv'v
    have hfind : (textResults q rows).find? (fun t'' => t''.1.id == v'.1.id) = some t := by
      have hsome : ((textResults q rows).find? (fun t'' => t''.1.id == v'.1.id)).isSome := by
        rw [List.find?_isSome]
        exact ⟨t, ht, by simp [hid.symm]⟩
      rcases Option.isSome_iff_exists.1 hsome with ⟨y, hy⟩
      have hyid : y.1.id = v'.1.id := by
        have := List.find?_some hy
        simpa using this
      have hymem : y ∈ textResults q rows := List.mem_of_find?_eq_some hy
      have hyt : y = t := List.inj_on_of_nodup_map htnd hymem ht (by rw [hyid, hid])
      rw [hy, hyt]
    rw [hfind] at hveq
    rw [← hmk, ← hveq]
    constructor
    · simp [fusedScore]
    · rfl
  · exfalso
    rcases List.mem_map.1 hB with ⟨t', ht', hteq⟩
    have ht'f := List.mem_filter.1 ht'
    have hnone : ((vectorResults q rows).any (fun v'' => v''.1.id == t'.1.id)) = false := by
      have := ht'f.2
      simpa using this
    have ht'id : t'.1.id = v.1.id := by
      have h1 : t'.1.id = e.1.id := by rw [← hteq]
      have heid : e.1.id = v.1.id := by rw [← hmk] at hrid; exact hrid
      rw [h1, heid]
    have : (fun v'' : HSRow × ℚ => v''.1.id == t'.1.id) v = true := by
      simp [ht'id.symm]
    have hany : ((vectorResults q rows).any (fun v'' => v''.1.id == t'.1.id)) = true :=
      List.any_eq_true.2 ⟨v, hv, this⟩
    rw [hany] at hnone
    simp at hnone

/-- A concrete crawled-pages row used in witnesses. -/
def hsRow1 : HSRow :=
  { id := 1, url := "u", chunkNumber := 0, content := "pydantic test model",
    metadata := [], sourceId := "s", hasEmbedding := true }

/-- A concrete query matching `hsRow1` both lexically and by vector. -/
def hsQuery1 : HSQuery :=
  { cosDist := fun _ => 0, tsMatch := fun _ => true, tsRank := fun _ => 2,
    filter := [], sourceFilter := none, matchCount := 5 }

/-- The hybrid result row produced for `hsQuery1` over `[hsRow1]`. -/
def hsRes1 : HSResult :=
  { id := 1, url := "u", chunkNumber := 0, content := "pydantic test model",
    metadata := [], sourceId := "s", similarity := 1, matchType := "hybrid" }

/-- Witness for C1 at a concrete table and query. -/
theorem hybrid_fusion_score_c1_witness :
    hsRes1.similarity = vectorWeight * max 0 (1 - 0) + textWeight * min 1 2 ∧
      hsRes1.matchType = "hybrid" :=
  hybrid_fusion_score_c1 hsQuery1 [hsRow1] (by with_unfolding_all decide)
    (hsRow1, 1 - 0) (hsRow1, 2) (by with_unfolding_all decide) (by with_unfolding_all decide) rfl hsRes1 (by with_unfolding_all decide) rfl

/-- C2 (amended): if the query text matches no row at all, every row the
hybrid search returns has match type "vector", and its reported score is the
weighted clamped similarity `vector_weight * max 0 (1 - cosine_distance)` —
not the raw clamped similarity. -/
theorem hybrid_vector_only_c2
    (q : HSQuery) (rows : List HSRow) (hnm : ∀ r ∈ rows, q.tsMatch r = false)
    (res : HSResult) (hres : res ∈ hybrid_search_archon_crawled_pages q rows) :
    res.matchType = "vector" ∧
      ∃ r ∈ rows, r.hasEmbedding = true ∧ res.id = r.id ∧
        res.similarity = vectorWeight * max 0 (1 - q.cosDist r) := by
  have hts : textResults q rows = [] := by
    unfold textResults
    have hfil : rows.filter (fun r => hsFilterOk q r && q.tsMatch r) = [] := by
      rw [List.filter_eq_nil_iff]
      intro a ha
      simp [hnm a ha]
    rw [hfil]
    simp
  have hcomb : res ∈ hsCombined q rows := by
    have h1 : res ∈ List.insertionSort resScoreGE (hsCombined q rows) :=
      (List.take_sublist _ _).subset hres
    exact (List.mem_insertionSort resScoreGE).1 h1
  unfold hsCombined at hcomb
  rw [hts] at hcomb
  simp only [hsJoin, List.find?_nil, Option.map_none', List.filter_nil, List.map_nil,
    List.append_nil, List.map_map] at hcomb
  rcases List.mem_map.1 hcomb with ⟨v, hv, hmk⟩
  have hv' := hv
  unfold vectorResults at hv'
  rcases List.mem_map.1 hv' with ⟨p, hp, hpv⟩
  have hpbase : p ∈ (rows.filter (fun r => hsFilterOk q r && r.hasEmbedding)).map
      (fun r => (r, q.cosDist r)) := by
    have h2 := (List.take_sublist _ _).subset hp
    exact (List.mem_insertionSort distLE).1 h2
  rcases List.mem_map.1 hpbase with ⟨r, hr, hrp⟩
  have hrmem := (List.mem_filter.1 hr).1
  have hremb : r.hasEmbedding = true := by
    have h3 := (List.mem_filter.1 hr).2
    simp only [Bool.and_eq_true] at h3
    exact h3.2
  refine ⟨?_, r, hrmem, hremb, ?_, ?_⟩
  · rw [← hmk]
    rfl
  · rw [← hmk, ← hpv, ← hrp]
    rfl
  · rw [← hmk, ← hpv, ← hrp]
    simp [fusedScore]

/-- A query with a usable vector and no usable text. -/
def hsQuery2 : HSQuery :=
  { cosDist := fun _ => 0, tsMatch := fun _ => false, tsRank := fun _ => 0,
    filter := [], sourceFilter := none, matchCount := 5 }

/-- C2 counterexample: at cosine distance 0 with no lexical match, the code
reports `0.5 * max 0 (1 - 0) = 1/2`, while the claim demands the raw clamped
similarity `max 0 (1 - 0) = 1`. -/
theorem hybrid_vector_only_c2_cex :
    (hybrid_search_archon_crawled_pages hsQuery2 [hsRow1]).map HSResult.similarity
        = [1 / 2] ∧ ((1 : ℚ) / 2) ≠ max 0 (1 - 0) := by
  constructor
  · with_unfolding_all decide
  · with_unfolding_all decide

/-- The vector-only result row produced for `hsQuery2` over `[hsRow1]`. -/
def hsRes2 : HSResult :=
  { id := 1, url := "u", chunkNumber := 0, content := "pydantic test model",
    metadata := [], sourceId := "s", similarity := 1 / 2, matchType := "vector" }

/-- Witness for the amended C2 at a concrete table and query. -/
theorem hybrid_vector_only_c2_witness :
    hsRes2.matchType = "vector" ∧
      ∃ r ∈ [hsRow1], r.hasEmbedding = true ∧ hsRes2.id = r.id ∧
        hsRes2.similarity = vectorWeight * max 0 (1 - hsQuery2.cosDist r) :=
  hybrid_vector_only_c2 hsQuery2 [hsRow1] (by with_unfolding_all decide) hsRes2 (by with_unfolding_all decide)

/-! ## Knowledge graph (`01_knowledge_graph_setup.sql`) -/

/-- One row of `kg_entity_types`. -/
structure KGEntityType where
  id : Nat
  name : String
deriving DecidableEq

/-- One row of `kg_entities` (the fields the query functions read).
`typeId` is the nullable `entity_type_id` foreign key. -/
structure KGEntity where
  id : Nat
  name : String
  typeId : Option Nat
deriving DecidableEq

/-- One row of `kg_relationship_types`. -/
structure KGRelType where
  id : Nat
  name : String
deriving DecidableEq

/-- One row of `kg_relationships` (the fields the query functions read). -/
structure KGRel where
  id : Nat
  sourceId : Nat
  targetId : Nat
  typeId : Option Nat
  confidence : ℚ
  context : String
deriving DecidableEq

/-- One row of `kg_entity_facts` (the fields the timeline reads).
`factDate` is the nullable `fact_date` column. -/
structure KGFact where
  id : Nat
  entityId : Nat
  factType : String
  factText : String
  confidence : ℚ
  documentId : Option Nat
  factDate : Option Int
deriving DecidableEq

/-- The knowledge-graph tables. -/
structure KGStore where
  entityTypes : List KGEntityType
  entities : List KGEntity
  relTypes : List KGRelType
  rels : List KGRel
  facts : List KGFact
deriving DecidableEq

/-! ### `kg_find_similar_entities` -/

/-- One row of the fuzzy-lookup result set. -/
structure KGSimResult where
  entityId : Nat
  entityName : String
  entityType : String
  simScore : ℚ
deriving DecidableEq

/-- `ORDER BY sim_score DESC`. -/
def kgSimGE (a b : KGSimResult) : Prop := b.simScore ≤ a.simScore

instance : DecidableRel kgSimGE :=
  fun a b => inferInstanceAs (Decidable (b.simScore ≤ a.simScore))

instance : IsTotal KGSimResult kgSimGE := ⟨fun a b => le_total b.simScore a.simScore⟩

instance : IsTrans KGSimResult kgSimGE := ⟨fun _ _ _ h1 h2 => le_trans h2 h1⟩

/-- `FROM kg_entities e JOIN kg_entity_types et ON e.entity_type_id = et.id`:
entities paired with their (inner-joined) type row. -/
def kgTypedEntities (s : KGStore) : List (KGEntity × KGEntityType) :=
  s.entities.filterMap (fun e =>
    (e.typeId.bind (fun t => s.entityTypes.find? (fun et => et.id == t))).map
      (fun et => (e, et)))

/-- The candidate set of `kg_find_similar_entities` after the threshold
filter and the `ORDER BY sim_score DESC`, before the `LIMIT`.  `sim` is
pg_trgm's `similarity`, an external primitive. -/
def kgSimCandidates (s : KGStore) (sim : String → String → ℚ)
    (queryName : String) (similarityThreshold : ℚ) : List KGSimResult :=
  List.insertionSort kgSimGE
    (((kgTypedEntities s).filter
        (fun p => decide (similarityThreshold < sim p.1.name queryName))).map
      (fun p => ⟨p.1.id, p.1.name, p.2.name, sim p.1.name queryName⟩))

/-- `kg_find_similar_entities`. -/
def kg_find_similar_entities (s : KGStore) (sim : String → String → ℚ)
    (queryName : String) (similarityThreshold : ℚ) (maxResults : Nat) :
    List KGSimResult :=
  (kgSimCandidates s sim queryName similarityThreshold).take maxResults

/-! ### `kg_get_entity_relationships` -/

/-- One row of the recursive CTE `entity_graph` (the SELECT list of both the
base and the recursive member, including `next_entity_id`). -/
structure EgRow where
  sourceName : String
  relType : String
  targetName : String
  confidence : ℚ
  context : String
  depth : Nat
  nextEntityId : Nat
deriving DecidableEq

/-- The three inner joins of a relationship row against `kg_entities` (source
and target) and `kg_relationship_types`, read at depth `d`; `none` when any
join partner is missing. -/
def relToRow (s : KGStore) (d : Nat) (r : KGRel) : Option EgRow :=
  match s.entities.find? (fun e => e.id == r.sourceId),
        s.entities.find? (fun e => e.id == r.targetId),
        r.typeId.bind (fun t => s.relTypes.find? (fun rt => rt.id == t)) with
  | some se, some te, some rt =>
      some ⟨se.name, rt.name, te.name, r.confidence, r.context, d, r.targetId⟩
  | _, _, _ => none

/-- Base member of the CTE: direct relationships of the root, depth 1. -/
def egBase (s : KGStore) (root : Nat) : List EgRow :=
  (s.rels.filter (fun r => r.sourceId == root)).filterMap (relToRow s 1)

/-- Recursive member of the CTE: every previous row with `depth < max_depth`
joined against the relationships leaving its `next_entity_id`. -/
def egStep (s : KGStore) (maxDepth : Nat) (prev : List EgRow) : List EgRow :=
  prev.flatMap (fun e =>
    if e.depth < maxDepth then
      (s.rels.filter (fun r => r.sourceId == e.nextEntityId)).filterMap
        (relToRow s (e.depth + 1))
    else [])

/-- Level `k` of the CTE evaluation (level 0 is the base member). -/
def egLevel (s : KGStore) (root : Nat) (maxDepth : Nat) : Nat → List EgRow
  | 0 => egBase s root
  | k + 1 => egStep s maxDepth (egLevel s root maxDepth k)

/-- The full result of the recursive CTE: the union of all levels.  By
`egLevel_eq_nil` every level with index `≥ max maxDepth 1` is empty, so the
union over `range (maxDepth + 1)` is the CTE's fixpoint. -/
def entityGraph (s : KGStore) (root : Nat) (maxDepth : Nat) : List EgRow :=
  (List.range (maxDepth + 1)).flatMap (egLevel s root maxDepth)

/-- The final SELECT list (drops `next_entity_id`). -/
structure KGRelResult where
  sourceName : String
  relType : String
  targetName : String
  confidence : ℚ
  context : String
  depth : Nat
deriving DecidableEq

/-- `ORDER BY depth, confidence_score DESC`. -/
def egOrder (a b : KGRelResult) : Prop :=
  a.depth < b.depth ∨ (a.depth = b.depth ∧ b.confidence ≤ a.confidence)

instance : DecidableRel egOrder :=
  fun _ _ => inferInstanceAs (Decidable (_ ∨ _))

instance : IsTotal KGRelResult egOrder :=
  ⟨fun a b => by
    rcases Nat.lt_trichotomy a.depth b.depth with h | h | h
    · exact Or.inl (Or.inl h)
    · rcases le_total b.confidence a.confidence with hc | hc
      · exact Or.inl (Or.inr ⟨h, hc⟩)
      · exact Or.inr (Or.inr ⟨h.symm, hc⟩)
    · exact Or.inr (Or.inl h)⟩

instance : IsTrans KGRelResult egOrder :=
  ⟨fun a b c hab hbc => by
    rcases hab with h1 | ⟨h1, hc1⟩ <;> rcases hbc with h2 | ⟨h2, hc2⟩
    · exact Or.inl (Nat.lt_trans h1 h2)
    · exact Or.inl (by omega)
    · exact Or.inl (by omega)
    · exact Or.inr ⟨by omega, le_trans hc2 hc1⟩⟩

/-- Projection of a CTE row to the final SELECT list. -/
def egProject (e : EgRow) : KGRelResult :=
  ⟨e.sourceName, e.relType, e.targetName, e.confidence, e.context, e.depth⟩

/-- `kg_get_entity_relationships`: evaluate the CTE, order by
`(depth, confidence DESC)`, limit to `max_results`. -/
def kg_get_entity_relationships (s : KGStore) (root : Nat)
    (maxDepth maxResults : Nat) : List KGRelResult :=
  (List.insertionSort egOrder ((entityGraph s root maxDepth).map egProject)).take
    maxResults

/-- A successful join fixes the row's depth. -/
theorem relToRow_depth (s : KGStore) (d : Nat) (r : KGRel) (e : EgRow)
    (h : relToRow s d r = some e) : e.depth = d := by
  unfold relToRow at h
  split at h
  · cases h
    rfl
  · cases h

/-- Every row of level `k` has depth `k + 1`, and levels past the base one
exist only below the depth bound. -/
theorem egLevel_depth (s : KGStore) (root : Nat) (maxDepth : Nat) :
    ∀ k, ∀ e ∈ egLevel s root maxDepth k,
      e.depth = k + 1 ∧ (k = 0 ∨ k + 1 ≤ maxDepth) := by
  intro k
  induction k with
  | zero =>
    intro e he
    rcases List.mem_filterMap.1 he with ⟨r, _, hrow⟩
    exact ⟨relToRow_depth s 1 r e hrow, Or.inl rfl⟩
  | succ k ih =>
    intro e he
    rcases List.mem_flatMap.1 he with ⟨p, hp, hpe⟩
    by_cases hd : p.depth < maxDepth
    · rw [if_pos hd] at hpe
      rcases List.mem_filterMap.1 hpe with ⟨r, _, hrow⟩
      have hdep := (ih p hp).1
      have hre := relToRow_depth s (p.depth + 1) r e hrow
      constructor
      · omega
      · right
        omega
    · rw [if_neg hd] at hpe
      cases hpe

/-- Termination of the CTE: every level at or past the depth bound (other
than the unconditional base level) is empty. -/
theorem egLevel_eq_nil (s : KGStore) (root : Nat) (maxDepth k : Nat)
    (h1 : 1 ≤ k) (h2 : maxDepth ≤ k) : egLevel s root maxDepth k = [] := by
  cases k with
  | zero => omega
  | succ k =>
    rw [List.eq_nil_iff_forall_not_mem]
    intro e he
    have h3 := egLevel_depth s root maxDepth (k + 1) e he
    rcases h3.2 with h | h <;> omega

/-- C3: with a depth bound `D ≥ 1` every row the traversal returns has depth
between 1 and `D`, and the CTE terminates: every level at or past the bound
is empty. -/
theorem kg_traversal_depth_bound_c3
    (s : KGStore) (root maxDepth maxResults k : Nat) (row : KGRelResult)
    (hD : 1 ≤ maxDepth)
    (hrow : row ∈ kg_get_entity_relationships s root maxDepth maxResults)
    (hk : maxDepth ≤ k) :
    (1 ≤ row.depth ∧ row.depth ≤ maxDepth) ∧ egLevel s root maxDepth k = [] := by
  refine ⟨?_, egLevel_eq_nil s root maxDepth k (le_trans hD hk) hk⟩
  have h1 : row ∈ (entityGraph s root maxDepth).map egProject := by
    have h2 := (List.take_sublist _ _).subset hrow
    exact (List.mem_insertionSort egOrder).1 h2
  rcases List.mem_map.1 h1 with ⟨e, he, hpe⟩
  rcases List.mem_flatMap.1 he with ⟨kk, _, hek⟩
  have hd := egLevel_depth s root maxDepth kk e hek
  have hdep : row.depth = e.depth := by rw [← hpe]; rfl
  have h3 := hd.1
  rcases hd.2 with h0 | hle <;> constructor <;> omega

/-- A two-entity graph with a cycle `A → B → A`. -/
def kgCycStore : KGStore :=
  { entityTypes := [⟨1, "PERSON"⟩],
    entities := [⟨1, "A", some 1⟩, ⟨2, "B", some 1⟩],
    relTypes := [⟨1, "WORKS_FOR"⟩, ⟨2, "LOCATED_IN"⟩],
    rels := [⟨1, 1, 2, some 1, 9 / 10, "c1"⟩, ⟨2, 2, 1, some 2, 8 / 10, "c2"⟩],
    facts := [] }

/-- Witness for C3 on the cyclic graph at depth bound 2. -/
theorem kg_traversal_depth_bound_c3_witness :
    (1 ≤ (⟨"A", "WORKS_FOR", "B", 9 / 10, "c1", 1⟩ : KGRelResult).depth ∧
      (⟨"A", "WORKS_FOR", "B", 9 / 10, "c1", 1⟩ : KGRelResult).depth ≤ 2) ∧
    egLevel kgCycStore 1 2 2 = [] :=
  kg_traversal_depth_bound_c3 kgCycStore 1 2 50 2 ⟨"A", "WORKS_FOR", "B", 9 / 10, "c1", 1⟩
    (by norm_num) (by with_unfolding_all decide) (le_refl 2)

/-- C4: traversal results are sorted by depth ascending then confidence
descending, and truncated to at most `max_results` rows. -/
theorem kg_traversal_ordering_c4 (s : KGStore) (root maxDepth maxResults : Nat) :
    List.Sorted egOrder (kg_get_entity_relationships s root maxDepth maxResults) ∧
    (kg_get_entity_relationships s root maxDepth maxResults).length ≤ maxResults := by
  constructor
  · exact (List.sorted_insertionSort egOrder _).sublist (List.take_sublist _ _)
  · unfold kg_get_entity_relationships
    rw [List.length_take]
    exact min_le_left _ _

/-- C9 (amended): every type-classified entity above the similarity threshold
appears in the candidate set before truncation; the output is ordered by
similarity descending, is at most `max_results` long, and contains only
type-classified entities above the threshold. -/
theorem kg_fuzzy_lookup_c9 (s : KGStore) (sim : String → String → ℚ)
    (queryName : String) (τ : ℚ) (maxResults : Nat)
    (e : KGEntity) (et : KGEntityType)
    (hmem : (e, et) ∈ kgTypedEntities s) (hτ : τ < sim e.name queryName) :
    (⟨e.id, e.name, et.name, sim e.name queryName⟩ : KGSimResult) ∈
        kgSimCandidates s sim queryName τ ∧
    List.Sorted kgSimGE (kg_find_similar_entities s sim queryName τ maxResults) ∧
    (kg_find_similar_entities s sim queryName τ maxResults).length ≤ maxResults ∧
    ∀ r ∈ kg_find_similar_entities s sim queryName τ maxResults,
      ∃ e2 et2, (e2, et2) ∈ kgTypedEntities s ∧ τ < sim e2.name queryName ∧
        r = ⟨e2.id, e2.name, et2.name, sim e2.name queryName⟩ := by
  refine ⟨?_, ?_, ?_, ?_⟩
  · apply (List.mem_insertionSort kgSimGE).2
    exact List.mem_map.2 ⟨(e, et), List.mem_filter.2 ⟨hmem, by simp [hτ]⟩, rfl⟩
  · exact (List.sorted_insertionSort kgSimGE _).sublist (List.take_sublist _ _)
  · unfold kg_find_similar_entities
    rw [List.length_take]
    exact min_le_left _ _
  · intro r hr
    have h1 : r ∈ kgSimCandidates s sim queryName τ :=
      (List.take_sublist _ _).subset hr
    have h2 := (List.mem_insertionSort kgSimGE).1 h1
    rcases List.mem_map.1 h2 with ⟨p, hp, hmk⟩
    have hp2 := List.mem_filter.1 hp
    refine ⟨p.1, p.2, hp2.1, ?_, hmk.symm⟩
    have := hp2.2
    simpa using this

/-- A store whose sole entity carries a NULL `entity_type_id`. -/
def kgNoTypeStore : KGStore :=
  { entityTypes := [], entities := [⟨1, "Acme", none⟩], relTypes := [],
    rels := [], facts := [] }

/-- C9 counterexample: an entity whose similarity (1) exceeds the threshold
(0.3) is omitted — the inner join against `kg_entity_types` drops it because
its `entity_type_id` is NULL, so the candidate set is already empty. -/
theorem kg_fuzzy_lookup_c9_cex :
    kg_find_similar_entities kgNoTypeStore (fun _ _ => 1) "Acme" (3 / 10) 10 = [] ∧
      (3 / 10 : ℚ) < 1 ∧ kgNoTypeStore.entities = [⟨1, "Acme", none⟩] := by
  refine ⟨?_, by norm_num, rfl⟩
  with_unfolding_all decide

/-- A store with one properly type-classified entity. -/
def kgTypedStore : KGStore :=
  { entityTypes := [⟨1, "ORGANIZATION"⟩], entities := [⟨1, "Acme", some 1⟩],
    relTypes := [], rels := [], facts := [] }

/-- Witness for the amended C9 at a concrete store. -/
theorem kg_fuzzy_lookup_c9_witness :
    (⟨1, "Acme", "ORGANIZATION", 1⟩ : KGSimResult) ∈
        kgSimCandidates kgTypedStore (fun _ _ => 1) "Acme" (3 / 10) ∧
    List.Sorted kgSimGE
      (kg_find_similar_entities kgTypedStore (fun _ _ => 1) "Acme" (3 / 10) 10) ∧
    (kg_find_similar_entities kgTypedStore (fun _ _ => 1) "Acme" (3 / 10) 10).length
        ≤ 10 ∧
    ∀ r ∈ kg_find_similar_entities kgTypedStore (fun _ _ => 1) "Acme" (3 / 10) 10,
      ∃ e2 et2, (e2, et2) ∈ kgTypedEntities kgTypedStore ∧ (3 / 10 : ℚ) < 1 ∧
        r = ⟨e2.id, e2.name, et2.name, 1⟩ :=
  kg_fuzzy_lookup_c9 kgTypedStore (fun _ _ => 1) "Acme" (3 / 10) 10
    ⟨1, "Acme", some 1⟩ ⟨1, "ORGANIZATION"⟩
    (by with_unfolding_all decide) (by norm_num)

/-! ### `kg_get_entity_timeline` -/

/-- One row of the timeline result set. -/
structure KGTimelineRow where
  factDate : Option Int
  factType : String
  factText : String
  confidence : ℚ
  documentId : Option Nat
deriving DecidableEq

/-- `ORDER BY fact_date DESC NULLS LAST, confidence_score DESC` on the key
`(fact_date, confidence)`. -/
def tlKeyLE : (Option Int × ℚ) → (Option Int × ℚ) → Prop
  | (some x, ca), (some y, cb) => y < x ∨ (x = y ∧ cb ≤ ca)
  | (some _, _), (none, _) => True
  | (none, _), (some _, _) => False
  | (none, ca), (none, cb) => cb ≤ ca

instance : DecidableRel tlKeyLE := fun p q => by
  rcases p with ⟨_ | x, ca⟩ <;> rcases q with ⟨_ | y, cb⟩ <;>
    simp only [tlKeyLE] <;> infer_instance

instance : IsTotal (Option Int × ℚ) tlKeyLE :=
  ⟨fun p q => by
    rcases p with ⟨_ | x, ca⟩ <;> rcases q with ⟨_ | y, cb⟩ <;> simp only [tlKeyLE]
    · exact le_total cb ca
    · exact Or.inr trivial
    · exact Or.inl trivial
    · rcases lt_trichotomy x y with h | h | h
      · exact Or.inr (Or.inl h)
      · rcases le_total cb ca with hc | hc
        · exact Or.inl (Or.inr ⟨h, hc⟩)
        · exact Or.inr (Or.inr ⟨h.symm, hc⟩)
      · exact Or.inl (Or.inl h)⟩

instance : IsTrans (Option Int × ℚ) tlKeyLE :=
  ⟨fun p q r hpq hqr => by
    rcases p with ⟨_ | x, ca⟩ <;> rcases q with ⟨_ | y, cb⟩ <;>
      rcases r with ⟨_ | z, cc⟩ <;> simp only [tlKeyLE] at hpq hqr ⊢
    all_goals try exact le_trans hqr hpq
    rcases hpq with h1 | ⟨h1, hc1⟩ <;> rcases hqr with h2 | ⟨h2, hc2⟩
    · exact Or.inl (lt_trans h2 h1)
    · exact Or.inl (by omega)
    · exact Or.inl (by omega)
    · exact Or.inr ⟨by omega, le_trans hc2 hc1⟩⟩

/-- The timeline ordering on result rows. -/
def tlOrder (a b : KGTimelineRow) : Prop :=
  tlKeyLE (a.factDate, a.confidence) (b.factDate, b.confidence)

instance : DecidableRel tlOrder :=
  fun _ _ => inferInstanceAs (Decidable (tlKeyLE _ _))

instance : IsTotal KGTimelineRow tlOrder :=
  ⟨fun _ _ => total_of tlKeyLE _ _⟩

instance : IsTrans KGTimelineRow tlOrder :=
  ⟨fun _ _ _ h1 h2 => Trans.trans (r := tlKeyLE) (s := tlKeyLE) h1 h2⟩

/-- `(start_date IS NULL OR ef.fact_date >= start_date)` under SQL NULL
semantics: a NULL `fact_date` fails a supplied bound. -/
def tlStartOk (startDate : Option Int) (f : KGFact) : Bool :=
  match startDate with
  | none => true
  | some sd =>
    match f.factDate with
    | some d => decide (sd ≤ d)
    | none => false

/-- `(end_date IS NULL OR ef.fact_date <= end_date)` under SQL NULL
semantics. -/
def tlEndOk (endDate : Option Int) (f : KGFact) : Bool :=
  match endDate with
  | none => true
  | some ed =>
    match f.factDate with
    | some d => decide (d ≤ ed)
    | none => false

/-- `kg_get_entity_timeline`. -/
def kg_get_entity_timeline (s : KGStore) (eid : Nat)
    (startDate endDate : Option Int) : List KGTimelineRow :=
  List.insertionSort tlOrder
    ((s.facts.filter (fun f =>
        f.entityId == eid && tlStartOk startDate f && tlEndOk endDate f)).map
      (fun f => ⟨f.factDate, f.factType, f.factText, f.confidence, f.documentId⟩))

/-- C10 (amended): the timeline returns exactly the entity's facts that pass
each supplied bound under SQL NULL semantics — a fact with a NULL
`fact_date` passes only absent bounds — ordered by fact date descending with
NULLs last, ties by confidence descending. -/
theorem kg_timeline_c10 (s : KGStore) (eid : Nat) (startDate endDate : Option Int)
    (f : KGFact) (hf : f ∈ s.facts) (he : f.entityId = eid)
    (hs : tlStartOk startDate f = true) (hend : tlEndOk endDate f = true) :
    (⟨f.factDate, f.factType, f.factText, f.confidence, f.documentId⟩ : KGTimelineRow)
        ∈ kg_get_entity_timeline s eid startDate endDate ∧
    List.Sorted tlOrder (kg_get_entity_timeline s eid startDate endDate) ∧
    ∀ row ∈ kg_get_entity_timeline s eid startDate endDate,
      ∃ g ∈ s.facts, g.entityId = eid ∧ tlStartOk startDate g = true ∧
        tlEndOk endDate g = true ∧
        row = ⟨g.factDate, g.factType, g.factText, g.confidence, g.documentId⟩ := by
  refine ⟨?_, List.sorted_insertionSort tlOrder _, ?_⟩
  · apply (List.mem_insertionSort tlOrder).2
    apply List.mem_map.2
    refine ⟨f, List.mem_filter.2 ⟨hf, ?_⟩, rfl⟩
    simp [he, hs, hend]
  · intro row hrow
    have h1 := (List.mem_insertionSort tlOrder).1 hrow
    rcases List.mem_map.1 h1 with ⟨g, hg, hmk⟩
    have hg2 := List.mem_filter.1 hg
    have hb := hg2.2
    simp only [Bool.and_eq_true, beq_iff_eq] at hb
    exact ⟨g, hg2.1, hb.1.1, hb.1.2, hb.2, hmk.symm⟩

/-- A store whose sole fact has a NULL `fact_date`. -/
def kgNullDateStore : KGStore :=
  { entityTypes := [], entities := [], relTypes := [], rels := [],
    facts := [⟨1, 7, "status_change", "t", 1, none, none⟩] }

/-- C10 counterexample: with a start bound supplied, the entity's
NULL-dated fact is dropped entirely (the comparison is not true in SQL),
while the claim requires it to be returned and sorted last. -/
theorem kg_timeline_c10_cex :
    kg_get_entity_timeline kgNullDateStore 7 (some 0) none = [] ∧
      kgNullDateStore.facts.map KGFact.entityId = [7] ∧
      kgNullDateStore.facts.map KGFact.factDate = [none] := by
  refine ⟨?_, rfl, rfl⟩
  with_unfolding_all decide

/-- A store with one dated fact for entity 7. -/
def kgDateStore : KGStore :=
  { entityTypes := [], entities := [], relTypes := [], rels := [],
    facts := [⟨1, 7, "status_change", "t", 1, some 3, some 5⟩] }

/-- Witness for the amended C10 at a concrete store and window. -/
theorem kg_timeline_c10_witness :
    (⟨some 5, "status_change", "t", 1, some 3⟩ : KGTimelineRow)
        ∈ kg_get_entity_timeline kgDateStore 7 (some 0) (some 10) ∧
    List.Sorted tlOrder (kg_get_entity_timeline kgDateStore 7 (some 0) (some 10)) ∧
    ∀ row ∈ kg_get_entity_timeline kgDateStore 7 (some 0) (some 10),
      ∃ g ∈ kgDateStore.facts, g.entityId = 7 ∧ tlStartOk (some 0) g = true ∧
        tlEndOk (some 10) g = true ∧
        row = ⟨g.factDate, g.factType, g.factText, g.confidence, g.documentId⟩ :=
  kg_timeline_c10 kgDateStore 7 (some 0) (some 10)
    ⟨1, 7, "status_change", "t", 1, some 3, some 5⟩
    (by with_unfolding_all decide) rfl (by with_unfolding_all decide)
    (by with_unfolding_all decide)

/-! ## Researcher memories (`part_002`) -/

/-- One row of `researcher_memory_categories`. -/
structure MemCategory where
  id : Nat
  name : String
  priority : Int
  retentionDays : Option Int
deriving DecidableEq

/-- One row of `researcher_memories`.  `embedding` is a handle into the
embedding space (`none` = NULL); cosine distances to a query vector are
supplied per handle by the recall query. -/
structure MemoryRow where
  id : Nat
  userId : String
  categoryId : Option Nat
  memoryText : String
  context : String
  confidence : ℚ
  importance : ℚ
  accessCount : Nat
  lastAccessed : Option Int
  expiresAt : Option Int
  embedding : Option Nat
  createdAt : Int
deriving DecidableEq

/-- The memory tables. -/
structure MemStore where
  categories : List MemCategory
  memories : List MemoryRow
deriving DecidableEq

/-- `INTERVAL '1 day'` in seconds. -/
def secondsPerDay : Int := 86400

/-- The seed rows of `researcher_memory_categories`. -/
def researcher_memory_categories : List MemCategory :=
  [⟨1, "user_preferences", 10, some 365⟩,
   ⟨2, "research_context", 8, some 180⟩,
   ⟨3, "entity_interest", 7, some 180⟩,
   ⟨4, "source_preferences", 6, some 365⟩,
   ⟨5, "analysis_patterns", 5, some 180⟩,
   ⟨6, "domain_expertise", 9, some 365⟩,
   ⟨7, "research_methodology", 7, some 365⟩,
   ⟨8, "fact_corrections", 10, some 730⟩]

/-- `store_research_memory`: resolve the category by name (RAISE EXCEPTION
when missing, leaving the store unchanged), compute the expiry from the
override or the category default, insert one row, return its id.  `newId`
models the generated UUID. -/
def store_research_memory (st : MemStore) (now : Int) (newId : Nat)
    (userId categoryName memoryText : String) (context : String)
    (confidence importance : ℚ) (embedding : Option Nat)
    (retentionDaysOverride : Option Int) : Except String Nat × MemStore :=
  match st.categories.find? (fun c => c.name == categoryName) with
  | none =>
    (Except.error ("Memory category " ++ categoryName ++ " not found"), st)
  | some c =>
    let expiry : Option Int :=
      match retentionDaysOverride with
      | some d => some (now + d * secondsPerDay)
      | none =>
        match c.retentionDays with
        | some d => some (now + d * secondsPerDay)
        | none => none
    (Except.ok newId,
      { st with
          memories := st.memories ++
            [{ id := newId, userId := userId, categoryId := some c.id,
               memoryText := memoryText, context := context,
               confidence := confidence, importance := importance,
               accessCount := 0, lastAccessed := none, expiresAt := expiry,
               embedding := embedding, createdAt := now }] })

/-- `expires_at IS NULL OR expires_at > NOW()`. -/
def notExpired (now : Int) (m : MemoryRow) : Bool :=
  match m.expiresAt with
  | none => true
  | some e => decide (now < e)

/-- The WHERE clause of the access-tracking UPDATE at the top of
`get_research_memories_for_user`. -/
def touchPred (uid : String) (now : Int) (minImp : ℚ) (m : MemoryRow) : Bool :=
  m.userId == uid && notExpired now m && decide (minImp ≤ m.importance)

/-- The access-tracking UPDATE: `access_count = access_count + 1,
last_accessed = NOW()` on every qualifying row. -/
def touchAll (uid : String) (now : Int) (minImp : ℚ) (mems : List MemoryRow) :
    List MemoryRow :=
  mems.map (fun m =>
    if touchPred uid now minImp m then
      { m with accessCount := m.accessCount + 1, lastAccessed := some now }
    else m)

/-- One recall invocation.  `queryDist h` is the cosine distance
`embedding h <=> query_embedding` (an external pgvector primitive), present
iff a query vector was supplied; `trigramSim` is pg_trgm's `similarity`. -/
structure RecallQuery where
  userId : String
  queryText : Option String
  queryDist : Option (Nat → ℚ)
  maxMemories : Nat
  minImportance : ℚ
  trigramSim : String → String → ℚ

/-- One row of the recall result set. -/
structure RecallResult where
  memoryId : Nat
  categoryName : String
  memoryText : String
  confidence : ℚ
  importance : ℚ
  relevance : ℚ
  context : String
  createdAt : Int
deriving DecidableEq

/-- `JOIN researcher_memory_categories rmc ON rm.category_id = rmc.id`. -/
def memJoin (st : MemStore) : List (MemoryRow × MemCategory) :=
  st.memories.filterMap (fun m =>
    (m.categoryId.bind (fun cid => st.categories.find? (fun c => c.id == cid))).map
      (fun c => (m, c)))

/-- The `relevance` CASE of vector mode: `1 - distance` when the embedding
is non-NULL, else 0. -/
def vecSim (dist : Nat → ℚ) (m : MemoryRow) : ℚ :=
  match m.embedding with
  | some h => 1 - dist h
  | none => 0

/-- Vector-mode WHERE clause: user, expiry, importance floor, non-NULL
embedding, and `1 - distance > similarity_threshold` with the threshold
fixed at 0.5 in the function body. -/
def vectorQualified (st : MemStore) (now : Int) (q : RecallQuery)
    (dist : Nat → ℚ) : List (MemoryRow × MemCategory) :=
  (memJoin st).filter (fun p =>
    p.1.userId == q.userId && notExpired now p.1 &&
      decide (q.minImportance ≤ p.1.importance) && p.1.embedding.isSome &&
      (match p.1.embedding with
       | some h => decide ((1 / 2 : ℚ) < 1 - dist h)
       | none => false))

/-- Descending lexicographic sort key `(priority, relevance, importance,
access count)` used by vector and text mode (`ORDER BY ... DESC` on each). -/
def rankKey (p : (MemoryRow × MemCategory) × ℚ) : ℚ ×ₗ (ℚ ×ₗ (ℚ ×ₗ ℚ)) :=
  toLex (-(p.1.2.priority : ℚ),
    toLex (-p.2, toLex (-p.1.1.importance, -(p.1.1.accessCount : ℚ))))

/-- The vector/text-mode ordering. -/
def rankRel (a b : (MemoryRow × MemCategory) × ℚ) : Prop := rankKey a ≤ rankKey b

instance : DecidableRel rankRel :=
  fun a b => inferInstanceAs (Decidable (rankKey a ≤ rankKey b))

instance : IsTotal ((MemoryRow × MemCategory) × ℚ) rankRel :=
  ⟨fun a b => le_total (rankKey a) (rankKey b)⟩

instance : IsTrans ((MemoryRow × MemCategory) × ℚ) rankRel :=
  ⟨fun _ _ _ h1 h2 => le_trans h1 h2⟩

/-- Vector-mode ranking: qualifying rows paired with their similarity,
ordered by `(priority, similarity, importance, access count)` descending. -/
def vecRanked (st : MemStore) (now : Int) (q : RecallQuery) (dist : Nat → ℚ) :
    List ((MemoryRow × MemCategory) × ℚ) :=
  List.insertionSort rankRel
    ((vectorQualified st now q dist).map (fun p => (p, vecSim dist p.1)))

/-- The SELECT list of `get_research_memories_for_user`. -/
def recallProject (p : MemoryRow × MemCategory) (relevance : ℚ) : RecallResult :=
  { memoryId := p.1.id, categoryName := p.2.name, memoryText := p.1.memoryText,
    confidence := p.1.confidence, importance := p.1.importance,
    relevance := relevance, context := p.1.context, createdAt := p.1.createdAt }

/-- Vector mode (`IF query_embedding IS NOT NULL`). -/
def vectorMode (st : MemStore) (now : Int) (q : RecallQuery) (dist : Nat → ℚ) :
    List RecallResult :=
  ((vecRanked st now q dist).take q.maxMemories).map
    (fun p => recallProject p.1 p.2)

/-- `rm.memory_text ILIKE '%' || query_text || '%'`: case-insensitive
substring containment. -/
def ilike (hay needle : String) : Bool :=
  needle.isEmpty || (hay.toLower.splitOn needle.toLower).length != 1

/-- Text-mode relevance CASE: 1.0 on an ILIKE hit, else the trigram
similarity. -/
def textRelevance (q : RecallQuery) (txt : String) (m : MemoryRow) : ℚ :=
  if ilike m.memoryText txt then 1 else q.trigramSim m.memoryText txt

/-- Text-mode WHERE clause (ILIKE hit or trigram similarity above 0.3). -/
def textQualified (st : MemStore) (now : Int) (q : RecallQuery) (txt : String) :
    List (MemoryRow × MemCategory) :=
  (memJoin st).filter (fun p =>
    p.1.userId == q.userId && notExpired now p.1 &&
      decide (q.minImportance ≤ p.1.importance) &&
      (ilike p.1.memoryText txt ||
        decide ((3 / 10 : ℚ) < q.trigramSim p.1.memoryText txt)))

/-- Text mode (`ELSIF query_text IS NOT NULL`). -/
def textMode (st : MemStore) (now : Int) (q : RecallQuery) (txt : String) :
    List RecallResult :=
  (((List.insertionSort rankRel
        ((textQualified st now q txt).map
          (fun p => (p, textRelevance q txt p.1)))).take q.maxMemories).map
    (fun p => recallProject p.1 p.2))

/-- Descending lexicographic key `(priority, importance, access count,
created at)` of default mode. -/
def defKey (p : MemoryRow × MemCategory) : ℚ ×ₗ (ℚ ×ₗ (ℚ ×ₗ ℚ)) :=
  toLex (-(p.2.priority : ℚ),
    toLex (-p.1.importance,
      toLex (-(p.1.accessCount : ℚ), -(p.1.createdAt : ℚ))))

/-- The default-mode ordering. -/
def defRel (a b : MemoryRow × MemCategory) : Prop := defKey a ≤ defKey b

instance : DecidableRel defRel :=
  fun a b => inferInstanceAs (Decidable (defKey a ≤ defKey b))

instance : IsTotal (MemoryRow × MemCategory) defRel :=
  ⟨fun a b => le_total (defKey a) (defKey b)⟩

instance : IsTrans (MemoryRow × MemCategory) defRel :=
  ⟨fun _ _ _ h1 h2 => le_trans h1 h2⟩

/-- Default-mode WHERE clause. -/
def defQualified (st : MemStore) (now : Int) (q : RecallQuery) :
    List (MemoryRow × MemCategory) :=
  (memJoin st).filter (fun p =>
    p.1.userId == q.userId && notExpired now p.1 &&
      decide (q.minImportance ≤ p.1.importance))

/-- Default mode (`ELSE`): relevance reported equals importance. -/
def defaultMode (st : MemStore) (now : Int) (q : RecallQuery) :
    List RecallResult :=
  (((List.insertionSort defRel (defQualified st now q)).take q.maxMemories).map
    (fun p => recallProject p p.1.importance))

/-- The store after the access-tracking UPDATE. -/
def touchedStore (st : MemStore) (now : Int) (q : RecallQuery) : MemStore :=
  { st with memories := touchAll q.userId now q.minImportance st.memories }

/-- `get_research_memories_for_user`: first the access-tracking UPDATE, then
one of the three disjoint modes over the updated store. -/
def get_research_memories_for_user (st : MemStore) (now : Int)
    (q : RecallQuery) : List RecallResult × MemStore :=
  (match q.queryDist with
   | some dist => vectorMode (touchedStore st now q) now q dist
   | none =>
     match q.queryText with
     | some txt => textMode (touchedStore st now q) now q txt
     | none => defaultMode (touchedStore st now q) now q,
   touchedStore st now q)

/-- `last_accessed > NOW() - INTERVAL 'days days'` (NULL is not within). -/
def accessedWithin (now : Int) (days : Int) (m : MemoryRow) : Bool :=
  match m.lastAccessed with
  | some t => decide (now - days * secondsPerDay < t)
  | none => false

/-- `last_accessed < NOW() - INTERVAL 'days days'` (false on NULL). -/
def staleSince (now : Int) (days : Int) (m : MemoryRow) : Bool :=
  match m.lastAccessed with
  | some t => decide (t < now - days * secondsPerDay)
  | none => false

/-- `update_memory_importance`: first UPDATE boosts frequently and recently
accessed rows (capped at 1.0), second UPDATE decays stale rarely accessed
rows (floored at 0.1). -/
def update_memory_importance (now : Int) (mems : List MemoryRow) :
    List MemoryRow :=
  (mems.map (fun m =>
    if decide (5 < m.accessCount) && accessedWithin now 30 m then
      { m with importance := min 1 (m.importance + (m.accessCount : ℚ) * (1 / 100)) }
    else m)).map (fun m =>
    if staleSince now 90 m && decide (m.accessCount < 3) then
      { m with importance := max (1 / 10) (m.importance - 1 / 10) }
    else m)

/-- C5: storing against an unregistered category fails with the
category-not-found error and leaves the store unchanged; against a
registered category it appends exactly one row and returns its new id. -/
theorem store_memory_category_gate_c5 (st : MemStore) (now : Int) (newId : Nat)
    (uid cname text ctx : String) (conf imp : ℚ) (emb : Option Nat)
    (ovr : Option Int) :
    (st.categories.find? (fun c => c.name == cname) = none →
      store_research_memory st now newId uid cname text ctx conf imp emb ovr
        = (Except.error ("Memory category " ++ cname ++ " not found"), st)) ∧
    (∀ c, st.categories.find? (fun c => c.name == cname) = some c →
      ∃ row : MemoryRow,
        store_research_memory st now newId uid cname text ctx conf imp emb ovr
          = (Except.ok newId, { st with memories := st.memories ++ [row] }) ∧
        row.id = newId) := by
  constructor
  · intro h
    unfold store_research_memory
    rw [h]
  · intro c hc
    unfold store_research_memory
    rw [hc]
    exact ⟨_, rfl, rfl⟩

/-- The seeded store with no memories. -/
def memStore0 : MemStore := ⟨researcher_memory_categories, []⟩

set_option maxRecDepth 4000 in
/-- Witness for C5: an unregistered name fails and changes nothing; the
seeded `fact_corrections` category accepts the insert. -/
theorem store_memory_category_gate_c5_witness :
    (store_research_memory memStore0 0 100 "u" "nonexistent" "m" "ctx" 1 (1 / 2)
        none none
      = (Except.error ("Memory category " ++ "nonexistent" ++ " not found"),
         memStore0)) ∧
    ∃ row : MemoryRow,
      store_research_memory memStore0 0 100 "u" "fact_corrections" "m" "ctx" 1
          (1 / 2) none none
        = (Except.ok 100, { memStore0 with memories := memStore0.memories ++ [row] }) ∧
      row.id = 100 :=
  ⟨(store_memory_category_gate_c5 memStore0 0 100 "u" "nonexistent" "m" "ctx" 1
      (1 / 2) none none).1 (by with_unfolding_all decide),
   (store_memory_category_gate_c5 memStore0 0 100 "u" "fact_corrections" "m" "ctx" 1
      (1 / 2) none none).2 ⟨8, "fact_corrections", 10, some 730⟩
      (by with_unfolding_all decide)⟩

/-- C6: every recall call, in every mode, bulk-touches exactly the caller's
non-expired memories meeting the importance floor — incrementing
access_count by one and stamping last_accessed — and leaves every other
memory and the category table unchanged. -/
theorem recall_touch_on_read_c6 (st : MemStore) (now : Int) (q : RecallQuery) :
    (get_research_memories_for_user st now q).2.memories =
      st.memories.map (fun m =>
        if (m.userId == q.userId &&
            (match m.expiresAt with
             | none => true
             | some e => decide (now < e)) &&
            decide (q.minImportance ≤ m.importance)) = true then
          { m with accessCount := m.accessCount + 1, lastAccessed := some now }
        else m) ∧
    (get_research_memories_for_user st now q).2.categories = st.categories ∧
    (get_research_memories_for_user st now q).2.memories.length =
      st.memories.length := by
  refine ⟨rfl, rfl, ?_⟩
  simp [get_research_memories_for_user, touchedStore, touchAll]

/-- A never-accessed memory: NULL `last_accessed`, zero accesses. -/
def memNullAccess : MemoryRow :=
  { id := 1, userId := "u", categoryId := some 1, memoryText := "m",
    context := "c", confidence := 1, importance := 9 / 10, accessCount := 0,
    lastAccessed := none, expiresAt := none, embedding := none, createdAt := 0 }

/-- C7 counterexample: a memory never accessed (NULL `last_accessed`) with
`access_count < 3` is "not accessed within the last 90 days", yet the
decay UPDATE skips it — NULL fails `last_accessed < NOW() - 90 days` — so
its importance stays 0.9 instead of becoming max(0.1, 0.8). -/
theorem memory_importance_c7_cex :
    (update_memory_importance 0 [memNullAccess]).map MemoryRow.importance
        = [9 / 10] ∧
      memNullAccess.lastAccessed = none ∧ memNullAccess.accessCount < 3 ∧
      (9 / 10 : ℚ) ≠ max (1 / 10) (9 / 10 - 1 / 10) := by
  refine ⟨?_, rfl, by with_unfolding_all decide, ?_⟩
  · with_unfolding_all decide
  · with_unfolding_all decide

/-- C7 (amended): the re-scoring pass boosts rows with more than 5 accesses
whose non-NULL `last_accessed` lies within 30 days, decays rows with a
non-NULL `last_accessed` older than 90 days and fewer than 3 accesses,
leaves every other row unchanged, and keeps importance inside [0.1, 1]. -/
theorem memory_importance_rescoring_c7 (now : Int) (mems : List MemoryRow)
    (hb : ∀ m ∈ mems, (1 / 10 : ℚ) ≤ m.importance ∧ m.importance ≤ 1) :
    update_memory_importance now mems = mems.map (fun m =>
      if decide (5 < m.accessCount) && accessedWithin now 30 m then
        { m with importance := min 1 (m.importance + (m.accessCount : ℚ) * (1 / 100)) }
      else if staleSince now 90 m && decide (m.accessCount < 3) then
        { m with importance := max (1 / 10) (m.importance - 1 / 10) }
      else m) ∧
    ∀ m' ∈ update_memory_importance now mems,
      (1 / 10 : ℚ) ≤ m'.importance ∧ m'.importance ≤ 1 := by
  have heq : update_memory_importance now mems = mems.map (fun m =>
      if decide (5 < m.accessCount) && accessedWithin now 30 m then
        { m with importance := min 1 (m.importance + (m.accessCount : ℚ) * (1 / 100)) }
      else if staleSince now 90 m && decide (m.accessCount < 3) then
        { m with importance := max (1 / 10) (m.importance - 1 / 10) }
      else m) := by
    unfold update_memory_importance
    rw [List.map_map]
    apply List.map_congr_left
    intro m _
    simp only [Function.comp_apply]
    by_cases h1 : (decide (5 < m.accessCount) && accessedWithin now 30 m) = true
    · simp only [if_pos h1]
      have hparts := h1
      simp only [Bool.and_eq_true, decide_eq_true_eq] at hparts
      have h3 : decide (m.accessCount < 3) = false := decide_eq_false (by omega)
      simp [h3]
    · simp only [if_neg h1]
  refine ⟨heq, ?_⟩
  intro m' hm'
  rw [heq] at hm'
  rcases List.mem_map.1 hm' with ⟨m, hm, hmk⟩
  rcases hb m hm with ⟨hlo, hhi⟩
  by_cases h1 : (decide (5 < m.accessCount) && accessedWithin now 30 m) = true
  · rw [if_pos h1] at hmk
    subst hmk
    refine ⟨?_, ?_⟩
    · show (1 / 10 : ℚ) ≤ min 1 (m.importance + (m.accessCount : ℚ) * (1 / 100))
      apply le_min
      · norm_num
      · have hnn : (0 : ℚ) ≤ (m.accessCount : ℚ) * (1 / 100) := by positivity
        linarith
    · show min 1 (m.importance + (m.accessCount : ℚ) * (1 / 100)) ≤ (1 : ℚ)
      exact min_le_left _ _
  · rw [if_neg h1] at hmk
    by_cases h2 : (staleSince now 90 m && decide (m.accessCount < 3)) = true
    · rw [if_pos h2] at hmk
      subst hmk
      refine ⟨?_, ?_⟩
      · show (1 / 10 : ℚ) ≤ max (1 / 10) (m.importance - 1 / 10)
        exact le_max_left _ _
      · show max (1 / 10) (m.importance - 1 / 10) ≤ (1 : ℚ)
        apply max_le
        · norm_num
        · linarith
    · rw [if_neg h2] at hmk
      subst hmk
      exact ⟨hlo, hhi⟩

/-- A frequently and recently accessed memory. -/
def memBoost : MemoryRow :=
  { id := 2, userId := "u", categoryId := some 1, memoryText := "m",
    context := "c", confidence := 1, importance := 1 / 2, accessCount := 10,
    lastAccessed := some 0, expiresAt := none, embedding := none, createdAt := 0 }

/-- Witness for the amended C7: the boosted row's new importance
`min 1 (0.5 + 10*0.01) = 0.6` stays inside [0.1, 1]. -/
theorem memory_importance_rescoring_c7_witness :
    (1 / 10 : ℚ) ≤ ({ memBoost with importance := 3 / 5 } : MemoryRow).importance ∧
      ({ memBoost with importance := 3 / 5 } : MemoryRow).importance ≤ 1 :=
  (memory_importance_rescoring_c7 0 [memBoost]
      (by with_unfolding_all decide)).2
    { memBoost with importance := 3 / 5 } (by with_unfolding_all decide)

/-- C8: in vector mode every returned row comes from a memory of the caller
that is unexpired, meets the importance floor, has a non-NULL embedding and
cosine similarity at least 0.5; the ranking is sorted by (category priority,
similarity, importance, access count) descending and at most the requested
count of rows is returned. -/
theorem recall_vector_mode_c8 (st : MemStore) (now : Int) (q : RecallQuery)
    (dist : Nat → ℚ) (hq : q.queryDist = some dist)
    (res : RecallResult)
    (hres : res ∈ (get_research_memories_for_user st now q).1) :
    (∃ p, p ∈ vectorQualified (touchedStore st now q) now q dist ∧
        res = recallProject p (vecSim dist p.1) ∧
        p.1.userId = q.userId ∧ notExpired now p.1 = true ∧
        q.minImportance ≤ p.1.importance ∧
        ∃ h, p.1.embedding = some h ∧ (1 / 2 : ℚ) ≤ 1 - dist h) ∧
    List.Sorted rankRel (vecRanked (touchedStore st now q) now q dist) ∧
    (get_research_memories_for_user st now q).1.length ≤ q.maxMemories := by
  have hout : (get_research_memories_for_user st now q).1
      = vectorMode (touchedStore st now q) now q dist := by
    unfold get_research_memories_for_user
    rw [hq]
  refine ⟨?_, List.sorted_insertionSort rankRel _, ?_⟩
  · rw [hout] at hres
    unfold vectorMode at hres
    rcases List.mem_map.1 hres with ⟨pr, hpr, hmk⟩
    have hpr2 : pr ∈ vecRanked (touchedStore st now q) now q dist :=
      (List.take_sublist _ _).subset hpr
    unfold vecRanked at hpr2
    have hpr3 := (List.mem_insertionSort rankRel).1 hpr2
    rcases List.mem_map.1 hpr3 with ⟨p, hp, hpq⟩
    have hf := (List.mem_filter.1 hp).2
    simp only [Bool.and_eq_true, beq_iff_eq, decide_eq_true_eq] at hf
    obtain ⟨⟨⟨⟨hu, hexp⟩, himp⟩, _⟩, hm⟩ := hf
    refine ⟨p, hp, ?_, hu, hexp, himp, ?_⟩
    · rw [← hmk, ← hpq]
    · cases hemb : p.1.embedding with
      | none =>
        rw [hemb] at hm
        simp at hm
      | some h =>
        rw [hemb] at hm
        simp only [decide_eq_true_eq] at hm
        exact ⟨h, rfl, le_of_lt hm⟩
  · rw [hout]
    unfold vectorMode
    rw [List.length_map, List.length_take]
    exact min_le_left _ _

/-- Zero cosine distance to every embedding handle. -/
def dist0 : Nat → ℚ := fun _ => 0

/-- A memory with an embedding for user "u". -/
def memVec : MemoryRow :=
  { id := 3, userId := "u", categoryId := some 1, memoryText := "m",
    context := "c", confidence := 1, importance := 1 / 2, accessCount := 0,
    lastAccessed := none, expiresAt := none, embedding := some 0, createdAt := 0 }

/-- The seeded store holding `memVec`. -/
def memStoreVec : MemStore := ⟨researcher_memory_categories, [memVec]⟩

/-- A vector-mode recall query for user "u". -/
def recallQ : RecallQuery :=
  { userId := "u", queryText := none, queryDist := some dist0,
    maxMemories := 10, minImportance := 3 / 10, trigramSim := fun _ _ => 0 }

set_option maxRecDepth 8000 in
/-- Witness for C8 at a concrete store and query. -/
theorem recall_vector_mode_c8_witness :
    (∃ p, p ∈ vectorQualified (touchedStore memStoreVec 0 recallQ) 0 recallQ dist0 ∧
        (⟨3, "user_preferences", "m", 1, 1 / 2, 1, "c", 0⟩ : RecallResult)
            = recallProject p (vecSim dist0 p.1) ∧
        p.1.userId = "u" ∧ notExpired 0 p.1 = true ∧
        (3 / 10 : ℚ) ≤ p.1.importance ∧
        ∃ h, p.1.embedding = some h ∧ (1 / 2 : ℚ) ≤ 1 - dist0 h) ∧
    List.Sorted rankRel (vecRanked (touchedStore memStoreVec 0 recallQ) 0 recallQ dist0) ∧
    (get_research_memories_for_user memStoreVec 0 recallQ).1.length ≤ 10 :=
  recall_vector_mode_c8 memStoreVec 0 recallQ dist0 rfl
    ⟨3, "user_preferences", "m", 1, 1 / 2, 1, "c", 0⟩
    (by with_unfolding_all decide)
